import Mathlib

set_option maxRecDepth 16384

/-!
Verification of the e-commerce search / recommendation app against its
specification. The Python sources are shallowly embedded: dictionaries
become association lists over a `FieldValue` type, remote clients become
explicit function-valued backends carrying a log of the calls made to
them, and each Python function is translated into a Lean definition of
the same name (module `src/app/...` noted on each definition).
-/

/-- A JSON-like value stored in a backend payload or in a processed
product dictionary. Python's `None` is `.null`; catalog fields are
strings, integers (price), rationals (scores) or string lists (tags). -/
inductive FieldValue where
  | null
  | str (s : String)
  | int (n : Int)
  | rat (q : ℚ)
  | strList (l : List String)
deriving DecidableEq

/-- A raw backend search result: a dictionary from field names to values
(a key that is absent from the list is absent from the dictionary). -/
abbrev Payload := List (String × FieldValue)

/-- Python `dict.get(key, default)`: the stored value when the key is
present (even when that value is `None`), otherwise the default. -/
def dict_get (r : Payload) (key : String) (dflt : FieldValue) : FieldValue :=
  (List.lookup key r).getD dflt

/-- The processed product dictionary built by
`AzureSearchService._process_results` (azure_search_service.py:206-233).
Every key is always present; values may be `.null`. -/
structure ProductRecord where
  id : FieldValue
  name : FieldValue
  brand : FieldValue
  description : FieldValue
  price : FieldValue
  imageUrl : FieldValue
  imageCaption : FieldValue
  imageDescription : FieldValue
  imageTags : FieldValue
  score : FieldValue
  rerankerScore : FieldValue
deriving DecidableEq

/-- `FieldValue.isSeq v` holds exactly when `v` is a sequence (a Python
list) value. -/
def FieldValue.isSeq : FieldValue → Bool
  | .strList _ => true
  | _ => false

/-- One result of `_process_results` (azure_search_service.py:218-230).
Each plain field is `result.get(key)` (default `None`); `imageTags` is
`result.get("imageTags", [])`. The two score fields are read with
`getattr(result, "@search.score", None)`: a search result is a plain
dict, whose items are not attributes, so `getattr` always returns the
default `None`. -/
def process_result (r : Payload) : ProductRecord :=
  { id := dict_get r "id" .null
    name := dict_get r "name" .null
    brand := dict_get r "brand" .null
    description := dict_get r "description" .null
    price := dict_get r "price" .null
    imageUrl := dict_get r "imageUrl" .null
    imageCaption := dict_get r "imageCaption" .null
    imageDescription := dict_get r "imageDescription" .null
    imageTags := dict_get r "imageTags" (.strList [])
    score := .null
    rerankerScore := .null }

/-- `AzureSearchService._process_results` over a whole result sequence. -/
def process_results (rs : List Payload) : List ProductRecord :=
  rs.map process_result

/-- Application configuration (config.py:15-38); the three connection
settings read from the environment, `None` when unset. -/
structure Config where
  AZURE_OPENAI_ENDPOINT : Option String
  AZURE_OPENAI_API_KEY : Option String
  AZURE_SEARCH_SERVICE_ENDPOINT : Option String

/-- config.py:36 `MAX_SEARCH_RESULTS = 5`. -/
def Config.MAX_SEARCH_RESULTS : Nat := 5

/-- config.py:37 `DEFAULT_TEMPERATURE = 0.7` (the float literal, modelled
as the rational 7/10). -/
def Config.DEFAULT_TEMPERATURE : ℚ := 7/10

/-- config.py:38 `MAX_TOKENS = 1000`. -/
def Config.MAX_TOKENS : Nat := 1000

/-- Python truthiness of an optional string setting: `None` and the empty
string are falsy (`if not getattr(cls, field)`), config.py:51. -/
def truthy_setting : Option String → Bool
  | none => false
  | some s => !(s == "")

/-- config.py:43-47, the `required_fields` list of `Config.validate`. -/
def Config.required_fields : List String :=
  ["AZURE_OPENAI_ENDPOINT", "AZURE_OPENAI_API_KEY", "AZURE_SEARCH_SERVICE_ENDPOINT"]

/-- `getattr(cls, field)` for the required field names (config.py:51). -/
def Config.get_field (c : Config) (f : String) : Option String :=
  if f == "AZURE_OPENAI_ENDPOINT" then c.AZURE_OPENAI_ENDPOINT
  else if f == "AZURE_OPENAI_API_KEY" then c.AZURE_OPENAI_API_KEY
  else if f == "AZURE_SEARCH_SERVICE_ENDPOINT" then c.AZURE_SEARCH_SERVICE_ENDPOINT
  else none

/-- config.py:49-52: the required fields whose value is falsy. -/
def Config.missing_fields (c : Config) : List String :=
  Config.required_fields.filter fun f => !(truthy_setting (c.get_field f))

/-- `Config.validate` (config.py:40-57): raises `ValueError` (modelled as
`.error` carrying the exception message) when any required field is
missing, otherwise returns `True`. -/
def Config.validate (c : Config) : Except String Bool :=
  match c.missing_fields with
  | [] => .ok true
  | ms => .error ("Missing required configuration: " ++ String.intercalate ", " ms)

/-- Outcome of importing the config module: what the module-level code
printed, and whether the import completed (the process continued). -/
structure ModuleLoadResult where
  printed : String
  completed : Bool
deriving DecidableEq

/-- config.py:60-65: module-level `try: Config.validate() ... except
ValueError as e: print(warning)`. Both branches print and fall through,
so the import always completes and the process continues. -/
def config_module_load (c : Config) : ModuleLoadResult :=
  match c.validate with
  | .ok _ => ⟨"✅ Configuration loaded successfully", true⟩
  | .error e => ⟨"⚠️ Configuration warning: " ++ e, true⟩

/-- Helper for Python's thousands-grouped format `f"{n:,}"`: walking the
digit list least-significant first, a comma is inserted before every
third digit after the first three. -/
def comma_rev : List Char → Nat → List Char
  | [], _ => []
  | c :: cs, i => (if i ≠ 0 ∧ i % 3 = 0 then [',', c] else [c]) ++ comma_rev cs (i + 1)

/-- Python `f"{n:,}"` for a natural number: decimal digits grouped in
threes by commas. -/
def format_thousands_nat (n : Nat) : String :=
  String.mk ((comma_rev (Nat.toDigits 10 n).reverse 0).reverse)

/-- Python `f"{n:,}"` for an integer. -/
def format_thousands (n : Int) : String :=
  (if n < 0 then "-" else "") ++ format_thousands_nat n.natAbs

/-- Pad a fractional part to four digits, as `f"{x:.4f}"` prints it. -/
def pad4 (n : Nat) : String :=
  String.mk (List.replicate (4 - (Nat.repr n).length) '0') ++ Nat.repr n

/-- Python `f"{x:.4f}"` over an exact rational: the magnitude scaled by
10000 and rounded to the nearest integer, printed with exactly four
fractional digits (the float's round-half-to-even tie behaviour is
irrelevant at the inputs appearing here, which are not ties). -/
def format_fixed4 (q : ℚ) : String :=
  let scaled : Nat := (20000 * q.num.natAbs + q.den) / (2 * q.den)
  (if q.num < 0 then "-" else "") ++ Nat.repr (scaled / 10000) ++ "." ++ pad4 (scaled % 10000)

/-- app.py:431-432: `price_str = f"{price:,}원" if price is not None else
"가격 정보 없음"`. The catalog schema stores price as an integer or null;
other shapes also fall to the sentinel arm here (they do not occur). -/
def price_str : FieldValue → String
  | .int n => format_thousands n ++ "원"
  | _ => "가격 정보 없음"

/-- app.py:434-435: `tags_str = ', '.join(tags) if isinstance(tags, list)
and tags else 'N/A'` — a non-list or empty tags value gives the sentinel. -/
def tags_str : FieldValue → String
  | .strList (t :: ts) => String.intercalate ", " (t :: ts)
  | _ => "N/A"

/-- app.py:437-438: `score_str = f"{score:.4f}" if score is not None else
"N/A"`; scores are numeric or null in the schema. -/
def score_str : FieldValue → String
  | .rat q => format_fixed4 q
  | .int n => format_fixed4 (n : ℚ)
  | _ => "N/A"

/-- app.py:442 etc.: `top_product.get('name') or 'N/A'` — a null or
empty-string (falsy) field becomes the sentinel. -/
def text_or_na : FieldValue → String
  | .str s => if s = "" then "N/A" else s
  | _ => "N/A"

/-- The grounding context block `product_context` (app.py:440-450),
an f-string enumerating the top product's fields. -/
def product_context (p : ProductRecord) : String :=
  "\n[추천 상품 정보]\n- 상품명: " ++ text_or_na p.name ++
  "\n- 브랜드: " ++ text_or_na p.brand ++
  "\n- 가격: " ++ price_str p.price ++
  "\n- 설명: " ++ text_or_na p.description ++
  "\n- 이미지 캡션: " ++ text_or_na p.imageCaption ++
  "\n- 이미지 설명: " ++ text_or_na p.imageDescription ++
  "\n- 태그: " ++ tags_str p.imageTags ++
  "\n- 관련도 점수: " ++ score_str p.score ++ "\n"

/-- `pat` occurs as a contiguous substring of `s`. -/
def has_substring (s pat : String) : Bool :=
  (List.range (s.data.length + 1)).any fun i =>
    decide ((s.data.drop i).take pat.data.length = pat.data)

/-- openai_service.py:45, `text.replace("\n", " ")`: the pattern is a
single character, so each newline becomes a space. -/
def replace_newlines (cs : List Char) : List Char :=
  cs.map fun c => if c = '\n' then ' ' else c

/-- Python `str.strip()` over the characters of a string: leading and
trailing whitespace removed (`Char.isWhitespace` covers the space, tab,
carriage-return and newline characters that occur in query text). -/
def strip_ws (cs : List Char) : List Char :=
  ((cs.dropWhile Char.isWhitespace).reverse.dropWhile Char.isWhitespace).reverse

/-- The cleaning step of `OpenAIService.get_embedding`
(openai_service.py:45): replace newlines by spaces, then strip. -/
def clean_text (s : String) : String :=
  String.mk (strip_ws (replace_newlines s.data))

/-- The hosted embedding endpoint as seen by this program: a function
from submitted text to a vector, plus the log of texts submitted so far
(the log is the observation channel for call counting). -/
structure EmbedBackend where
  create : String → List ℚ
  submitted : List String

/-- `OpenAIService.get_embedding` (openai_service.py:34-53): cleans the
text, submits it to the embedding endpoint, and returns the vector; the
returned backend has the submission appended to its log. -/
def get_embedding (b : EmbedBackend) (text : String) : List ℚ × EmbedBackend :=
  let t := clean_text text
  (b.create t, { b with submitted := b.submitted ++ [t] })

/-- A query object passed to `search_client.search` (the hosted search
index): the arguments the service functions actually vary. The constant
`select` list is the same in every call and is omitted. -/
structure SearchRequest where
  searchText : Option String
  searchFields : Option (List String)
  top : Nat
  vectorKNN : Option Nat
  queryVector : Option (List ℚ)
deriving DecidableEq

/-- `AzureSearchService` (azure_search_service.py:15-29): the hosted
search index handle plus the embedding client. -/
structure AzureSearchService where
  searchBackend : SearchRequest → List Payload
  openaiService : EmbedBackend

/-- `top_k = top_k or Config.MAX_SEARCH_RESULTS` (azure_search_service.py
lines 70, 104, 148): Python `or` replaces a falsy value — `None` or
`0` — by the default. -/
def effective_top_k (topK : Option Nat) : Nat :=
  match topK with
  | none => Config.MAX_SEARCH_RESULTS
  | some k => if k = 0 then Config.MAX_SEARCH_RESULTS else k

/-- `if search_fields: search_params["search_fields"] = search_fields`
(azure_search_service.py:81-82, 125-126): the parameter is attached only
when the argument is a truthy (non-empty) list. -/
def attached_search_fields (f : Option (List String)) : Option (List String) :=
  match f with
  | some (x :: xs) => some (x :: xs)
  | _ => none

/-- `AzureSearchService.keyword_search` (azure_search_service.py:53-85):
full-text query, no vector, no embedding call. -/
def keyword_search (svc : AzureSearchService) (query : String)
    (searchFields : Option (List String)) (topK : Option Nat) :
    List ProductRecord × AzureSearchService :=
  let t := effective_top_k topK
  let req : SearchRequest := ⟨some query, attached_search_fields searchFields, t, none, none⟩
  (process_results (svc.searchBackend req), svc)

/-- `AzureSearchService.vector_search` (azure_search_service.py:131-169):
embeds the query once, then issues a pure k-NN query with
`search_text=None` and `k_nearest_neighbors = top_k`; the
`search_fields` argument is unused in this branch. -/
def vector_search (svc : AzureSearchService) (query : String)
    (_searchFields : Option (List String)) (topK : Option Nat) :
    List ProductRecord × AzureSearchService :=
  let t := effective_top_k topK
  let r := get_embedding svc.openaiService query
  let req : SearchRequest := ⟨none, none, t, some t, some r.1⟩
  (process_results (svc.searchBackend req), { svc with openaiService := r.2 })

/-- `AzureSearchService.hybrid_search` (azure_search_service.py:87-129):
embeds the query once and submits both the full-text query and the
vector query together. -/
def hybrid_search (svc : AzureSearchService) (query : String)
    (searchFields : Option (List String)) (topK : Option Nat) :
    List ProductRecord × AzureSearchService :=
  let t := effective_top_k topK
  let r := get_embedding svc.openaiService query
  let req : SearchRequest := ⟨some query, attached_search_fields searchFields, t, some t, some r.1⟩
  (process_results (svc.searchBackend req), { svc with openaiService := r.2 })

/-- A chat message as stored in `st.session_state.chat_messages`: role,
content, and the optional attached product of assistant turns. -/
structure ChatMsg where
  role : String
  content : String
  product : Option ProductRecord
deriving DecidableEq

/-- The hosted chat-completion endpoint: a response function plus the
log of (messages, temperature, max_tokens) triples submitted so far. -/
structure ChatBackend where
  completeFn : List ChatMsg → ℚ → Nat → String
  submitted : List (List ChatMsg × ℚ × Nat)

/-- `OpenAIService.chat_completion` (openai_service.py:55-82):
`temperature = temperature or Config.DEFAULT_TEMPERATURE` and
`max_tokens = max_tokens or Config.MAX_TOKENS` replace falsy arguments
(`None`, `0.0`, `0`) by the configured defaults before the remote call. -/
def chat_completion (b : ChatBackend) (messages : List ChatMsg)
    (temperature : Option ℚ) (maxTokens : Option Nat) : String × ChatBackend :=
  let t := match temperature with
    | none => Config.DEFAULT_TEMPERATURE
    | some x => if x = 0 then Config.DEFAULT_TEMPERATURE else x
  let m := match maxTokens with
    | none => Config.MAX_TOKENS
    | some x => if x = 0 then Config.MAX_TOKENS else x
  (b.completeFn messages t m, { b with submitted := b.submitted ++ [(messages, t, m)] })

/-- The app's error yielded by a failing retrieval call
(app.py:208): `st.error(f"❌ 검색 중 오류가 발생했습니다: {str(e)}")`. -/
def search_error_message (e : String) : String :=
  "❌ 검색 중 오류가 발생했습니다: " ++ e

/-- app.py:217: the error surfaced by a failing `load_all_products`. -/
def load_error_message (e : String) : String :=
  "❌ 상품을 불러오는 중 오류가 발생했습니다: " ++ e

/-- The search service as the presentation boundary sees it: each call
either returns results or raises a remote error (network, auth,
malformed query), modelled as `Except`. -/
structure FallibleSearchService where
  keywordSearch : String → Option (List String) → Except String (List ProductRecord)
  vectorSearch : String → Option (List String) → Except String (List ProductRecord)
  hybridSearch : String → Option (List String) → Except String (List ProductRecord)
  getAllProducts : Nat → Except String (List ProductRecord)

/-- app.py:196: `fields_to_search = search_fields if search_fields else
None` — an empty field list means all fields. -/
def fields_to_search (fields : List String) : Option (List String) :=
  if fields = [] then none else some fields

/-- The strategy dispatch inside the `try` block of `search_products`
(app.py:199-204): keyword, vector, or (default) hybrid. -/
def strategy_call (svc : FallibleSearchService) (query strategy : String)
    (fields : List String) : Except String (List ProductRecord) :=
  if strategy = "keyword" then svc.keywordSearch query (fields_to_search fields)
  else if strategy = "vector" then svc.vectorSearch query (fields_to_search fields)
  else svc.hybridSearch query (fields_to_search fields)

/-- `search_products` (app.py:192-209): the try/except boundary. The
pair is (returned product list, surfaced error description): a raised
remote error is caught and becomes an empty list plus the `st.error`
notice; nothing propagates further. -/
def search_products (svc : FallibleSearchService) (query strategy : String)
    (fields : List String) : List ProductRecord × Option String :=
  match strategy_call svc query strategy fields with
  | .ok results => (results, none)
  | .error e => ([], some (search_error_message e))

/-- `load_all_products` (app.py:212-218): same boundary around
`get_all_products(top_k=100)`. -/
def load_all_products (svc : FallibleSearchService) : List ProductRecord × Option String :=
  match svc.getAllProducts 100 with
  | .ok products => (products, none)
  | .error e => ([], some (load_error_message e))

/-- app.py:35: the fields searched by the chatbot's hybrid retrieval. -/
def ALL_SEARCH_FIELDS : List String :=
  ["name", "brand", "description", "imageCaption", "imageDescription", "imageTags"]

/-- The fixed system instruction of the chatbot (app.py:453-456). -/
def system_prompt : String :=
  "당신은 친절한 이커머스 상품 추천 챗봇입니다. \n사용자의 질문에 따라 검색된 상품 정보를 바탕으로 자연스럽고 친절하게 상품을 추천하고 설명해주세요.\n상품의 특징, 장점, 어울리는 상황 등을 포함하여 구체적으로 설명하되, 자연스러운 대화체를 유지하세요.\n가격과 브랜드 정보도 함께 안내해주세요."

/-- The fixed apology used when retrieval finds nothing (app.py:479). -/
def no_results_message : String :=
  "죄송합니다. 요청하신 내용과 관련된 상품을 찾을 수 없습니다. 다른 키워드로 다시 질문해주시겠어요?"

/-- app.py:464: `st.session_state.chat_messages[-7:] if
len(st.session_state.chat_messages) > 7 else
st.session_state.chat_messages` — the last seven entries. -/
def recent_messages (chat : List ChatMsg) : List ChatMsg :=
  if 7 < chat.length then chat.drop (chat.length - 7) else chat

/-- The last `n` entries of a transcript. -/
def last_entries (n : Nat) (l : List ChatMsg) : List ChatMsg :=
  l.drop (l.length - n)

/-- The chat-input branch of `main` (app.py:412-485): append the user
turn, retrieve with hybrid search over all fields, then either build the
grounded prompt (two system turns plus the recent-history window) and
call the completion client once, or — when retrieval yields nothing —
append the fixed apology without any completion call. Returns the new
transcript and the completion backend after the interaction. -/
def handle_prompt (svc : FallibleSearchService) (b : ChatBackend)
    (chat : List ChatMsg) (prompt : String) : List ChatMsg × ChatBackend :=
  let chat1 := chat ++ [⟨"user", prompt, none⟩]
  match (search_products svc prompt "hybrid" ALL_SEARCH_FIELDS).1 with
  | [] => (chat1 ++ [⟨"assistant", no_results_message, none⟩], b)
  | top :: _ =>
    let messages := ⟨"system", system_prompt, none⟩ ::
      ⟨"system", product_context top, none⟩ :: recent_messages chat1
    let r := chat_completion b messages none none
    (chat1 ++ [⟨"assistant", r.1, some top⟩], r.2)

/-- A concrete top retrieved product carrying the scenario of the spec's
grounding-context test: score 0.87, price 25000, tags [winter, coat]. -/
def example_top_product : ProductRecord :=
  { id := .str "prod-001"
    name := .str "윈터 패딩 코트"
    brand := .str "스노우픽"
    description := .str "한파에도 따뜻한 구스다운 코트"
    price := .int 25000
    imageUrl := .str "https://example.com/coat.jpg"
    imageCaption := .str "눈 내리는 거리의 코트"
    imageDescription := .str "두꺼운 겨울 코트 사진"
    imageTags := .strList ["winter", "coat"]
    score := .rat (mkRat 87 100)
    rerankerScore := .null }

/-- A concrete embedding backend with an empty call log. -/
def demo_embed : EmbedBackend := ⟨fun _ => [0], []⟩

/-- A concrete search index: empty for a zero-row request, one product
for any positive row count. -/
def demo_search_backend : SearchRequest → List Payload :=
  fun req => if req.top = 0 then [] else [[("id", FieldValue.str "p1")]]

/-- A concrete search service over `demo_search_backend`. -/
def demo_service : AzureSearchService := ⟨demo_search_backend, demo_embed⟩

/-- A presentation-boundary service whose every call raises. -/
def svc_fail : FallibleSearchService :=
  ⟨fun _ _ => .error "boom", fun _ _ => .error "boom", fun _ _ => .error "boom",
   fun _ => .error "boom"⟩

/-- A presentation-boundary service whose hybrid search finds exactly
the example product. -/
def svc_hit : FallibleSearchService :=
  ⟨fun _ _ => .ok [], fun _ _ => .ok [], fun _ _ => .ok [example_top_product],
   fun _ => .ok []⟩

/-- A presentation-boundary service that finds nothing anywhere. -/
def svc_none : FallibleSearchService :=
  ⟨fun _ _ => .ok [], fun _ _ => .ok [], fun _ _ => .ok [], fun _ => .ok []⟩

/-- A concrete completion backend with an empty call log. -/
def demo_chat : ChatBackend := ⟨fun _ _ _ => "네, 이 상품을 추천드려요.", []⟩

/-- A concrete session transcript of ten prior turns. -/
def chat10 : List ChatMsg :=
  [⟨"user", "안녕", none⟩, ⟨"assistant", "안녕하세요", none⟩,
   ⟨"user", "코트 있어?", none⟩, ⟨"assistant", "네 있습니다", none⟩,
   ⟨"user", "가격은?", none⟩, ⟨"assistant", "2만원대입니다", none⟩,
   ⟨"user", "색상은?", none⟩, ⟨"assistant", "검정입니다", none⟩,
   ⟨"user", "재고 있어?", none⟩, ⟨"assistant", "네", none⟩]

/-- The configuration with every connection setting unset. -/
def empty_config : Config := ⟨none, none, none⟩

theorem mem_of_dropWhile (p : Char → Bool) :
    ∀ (l : List Char) (c : Char), c ∈ l.dropWhile p → c ∈ l := by
  intro l
  induction l with
  | nil => intro c h; simp at h
  | cons a as ih =>
    intro c h
    by_cases hp : p a
    · rw [List.dropWhile_cons_of_pos hp] at h
      exact List.mem_cons_of_mem a (ih c h)
    · rwa [List.dropWhile_cons_of_neg hp] at h

theorem head_of_dropWhile (p : Char → Bool) :
    ∀ (l : List Char) (c : Char), (l.dropWhile p).head? = some c → p c = false := by
  intro l
  induction l with
  | nil => intro c h; simp [List.dropWhile] at h
  | cons a as ih =>
    intro c h
    by_cases hp : p a
    · exact ih c (by rwa [List.dropWhile_cons_of_pos hp] at h)
    · rw [List.dropWhile_cons_of_neg hp] at h
      simp only [List.head?_cons, Option.some.injEq] at h
      rw [← h]
      exact Bool.eq_false_iff.mpr hp

theorem head_of_append (l m : List Char) (c : Char) (h : l.head? = some c) :
    (l ++ m).head? = some c := by
  cases l with
  | nil => simp at h
  | cons a as => simpa using h

theorem last_of_reverse (l : List Char) : l.reverse.getLast? = l.head? := by
  cases l with
  | nil => rfl
  | cons a as => simp [List.reverse_cons, List.getLast?_concat]

theorem strip_ws_decomp (cs : List Char) :
    cs.dropWhile Char.isWhitespace =
      strip_ws cs ++
        ((cs.dropWhile Char.isWhitespace).reverse.takeWhile Char.isWhitespace).reverse := by
  have h := congrArg List.reverse
    (List.takeWhile_append_dropWhile Char.isWhitespace (cs.dropWhile Char.isWhitespace).reverse)
  rw [List.reverse_append, List.reverse_reverse] at h
  exact h.symm

theorem strip_ws_head (cs : List Char) (c : Char)
    (h : (strip_ws cs).head? = some c) : c.isWhitespace = false := by
  have h2 : (cs.dropWhile Char.isWhitespace).head? = some c := by
    rw [strip_ws_decomp cs]
    exact head_of_append _ _ _ h
  exact head_of_dropWhile _ _ _ h2

theorem strip_ws_last (cs : List Char) (c : Char)
    (h : (strip_ws cs).getLast? = some c) : c.isWhitespace = false := by
  have h2 : ((cs.dropWhile Char.isWhitespace).reverse.dropWhile Char.isWhitespace).head? =
      some c := by
    rw [strip_ws, last_of_reverse] at h
    exact h
  exact head_of_dropWhile _ _ _ h2

theorem strip_ws_mem (cs : List Char) (c : Char) (h : c ∈ strip_ws cs) : c ∈ cs := by
  rw [strip_ws, List.mem_reverse] at h
  have h2 := mem_of_dropWhile _ _ _ h
  rw [List.mem_reverse] at h2
  exact mem_of_dropWhile _ _ _ h2

theorem replace_newlines_no_nl (cs : List Char) (c : Char)
    (h : c ∈ replace_newlines cs) : c ≠ '\n' := by
  simp only [replace_newlines, List.mem_map] at h
  obtain ⟨a, _, ha⟩ := h
  rw [← ha]
  by_cases h2 : a = '\n'
  · simp [h2]
  · simp [h2]

/-- Claim C1: for a recommendation whose top retrieved product has score
0.87, price 25000 and imageTags [winter, coat], the grounding context
string built by the chatbot contains the literal substrings "25,000"
(thousands-grouped price), "0.8700" (score to 4 decimals) and
"winter, coat" (comma-joined tags). -/
theorem c1_grounding_context :
    has_substring (product_context example_top_product) "25,000" = true ∧
    has_substring (product_context example_top_product) "0.8700" = true ∧
    has_substring (product_context example_top_product) "winter, coat" = true := by
  refine ⟨?_, ?_, ?_⟩ <;> decide

/-- Claim C2, counterexample: with `topK = 0` every strategy replaces
the zero by the default of 5 (Python `or` on a falsy value) and returns
whatever the backend yields for five rows — here one product, so the
result sequence is not empty as the claim states. -/
theorem c2_counterexample :
    (keyword_search demo_service "q" none (some 0)).1 ≠ [] ∧
    (vector_search demo_service "q" none (some 0)).1 ≠ [] ∧
    (hybrid_search demo_service "q" none (some 0)).1 ≠ [] := by
  refine ⟨?_, ?_, ?_⟩ <;> decide

/-- Claim C2, amended: `topK = 0` is falsy, so each strategy treats it
exactly like an unset `topK` and queries with the default row count of
5; the call still raises no error. -/
theorem c2_amended_topk_default (svc : AzureSearchService) (query : String)
    (f : Option (List String)) :
    effective_top_k (some 0) = Config.MAX_SEARCH_RESULTS ∧
    keyword_search svc query f (some 0) =
      keyword_search svc query f (some Config.MAX_SEARCH_RESULTS) ∧
    vector_search svc query f (some 0) =
      vector_search svc query f (some Config.MAX_SEARCH_RESULTS) ∧
    hybrid_search svc query f (some 0) =
      hybrid_search svc query f (some Config.MAX_SEARCH_RESULTS) := by
  exact ⟨rfl, rfl, rfl, rfl⟩

/-- Claim C3, counterexample: with every required connection setting
missing, `Config.validate` does raise, but the module-level handler
catches the error, prints a warning and lets the import complete — the
process continues, contradicting the claimed hard failure. -/
theorem c3_counterexample :
    Config.validate empty_config =
      .error "Missing required configuration: AZURE_OPENAI_ENDPOINT, AZURE_OPENAI_API_KEY, AZURE_SEARCH_SERVICE_ENDPOINT" ∧
    (config_module_load empty_config).completed = true ∧
    (config_module_load empty_config).printed =
      "⚠️ Configuration warning: Missing required configuration: AZURE_OPENAI_ENDPOINT, AZURE_OPENAI_API_KEY, AZURE_SEARCH_SERVICE_ENDPOINT" := by
  exact ⟨rfl, rfl, rfl⟩

/-- Claim C3, amended: when any required connection setting is missing,
`Config.validate` raises an error naming the missing settings, but the
module-level wrapper catches it, prints only a warning, and the process
continues into partial operation. -/
theorem c3_amended_validation (c : Config) (h : c.missing_fields ≠ []) :
    Config.validate c =
      .error ("Missing required configuration: " ++ String.intercalate ", " c.missing_fields) ∧
    (config_module_load c).printed =
      ("⚠️ Configuration warning: " ++
        ("Missing required configuration: " ++ String.intercalate ", " c.missing_fields)) ∧
    (config_module_load c).completed = true := by
  cases hm : c.missing_fields with
  | nil => exact absurd hm h
  | cons m ms =>
    refine ⟨?_, ?_, ?_⟩ <;> simp [Config.validate, config_module_load, hm]

/-- Witness for C3's amended theorem at the all-missing configuration. -/
theorem c3_witness : (config_module_load empty_config).completed = true :=
  (c3_amended_validation empty_config (by decide)).2.2

/-- Claim C4: when the chat transcript holds 10 prior turns, the prompt
submitted to the completion client is exactly the 2 fixed system turns
(persona and grounding context) followed by exactly the last 7 entries
of the session history — which at windowing time includes the
just-appended user turn — 9 messages in all, older turns dropped. -/
theorem c4_history_window (svc : FallibleSearchService) (b : ChatBackend)
    (chat : List ChatMsg) (prompt : String) (top : ProductRecord)
    (rest : List ProductRecord)
    (hres : (search_products svc prompt "hybrid" ALL_SEARCH_FIELDS).1 = top :: rest)
    (hlen : chat.length = 10) :
    (handle_prompt svc b chat prompt).2.submitted =
      b.submitted ++ [(ChatMsg.mk "system" system_prompt none ::
        ChatMsg.mk "system" (product_context top) none ::
        last_entries 7 (chat ++ [ChatMsg.mk "user" prompt none]),
        Config.DEFAULT_TEMPERATURE, Config.MAX_TOKENS)] ∧
    (ChatMsg.mk "system" system_prompt none ::
        ChatMsg.mk "system" (product_context top) none ::
        last_entries 7 (chat ++ [ChatMsg.mk "user" prompt none])).length = 9 ∧
    last_entries 7 (chat ++ [ChatMsg.mk "user" prompt none]) =
      (chat ++ [ChatMsg.mk "user" prompt none]).drop 4 := by
  have hlen1 : (chat ++ [ChatMsg.mk "user" prompt none]).length = 11 := by
    simp [hlen]
  have hrecent : recent_messages (chat ++ [ChatMsg.mk "user" prompt none]) =
      (chat ++ [ChatMsg.mk "user" prompt none]).drop 4 := by
    simp [recent_messages, hlen1]
  have hlast : last_entries 7 (chat ++ [ChatMsg.mk "user" prompt none]) =
      (chat ++ [ChatMsg.mk "user" prompt none]).drop 4 := by
    simp [last_entries, hlen1]
  refine ⟨?_, ?_, hlast⟩
  · simp only [handle_prompt, hres]
    simp [chat_completion, hrecent, hlast]
  · rw [hlast]
    simp [hlen1]

/-- Witness for C4 at a concrete 10-turn transcript and a service whose
hybrid retrieval finds the example product. -/
theorem c4_witness :
    (handle_prompt svc_hit demo_chat chat10 "겨울 코트 추천해줘").2.submitted =
      demo_chat.submitted ++ [(ChatMsg.mk "system" system_prompt none ::
        ChatMsg.mk "system" (product_context example_top_product) none ::
        last_entries 7 (chat10 ++ [ChatMsg.mk "user" "겨울 코트 추천해줘" none]),
        Config.DEFAULT_TEMPERATURE, Config.MAX_TOKENS)] :=
  (c4_history_window svc_hit demo_chat chat10 "겨울 코트 추천해줘"
    example_top_product [] rfl rfl).1

/-- Claim C5: every remote error raised inside the retrieval boundary
(`search_products`, `load_all_products`) is caught there and becomes an
empty result list plus a surfaced error notice; a successful call passes
its results through with no notice. The boundary functions are total:
nothing propagates to the presentation layer. -/
theorem c5_retrieval_boundary (svc : FallibleSearchService) (query strategy : String)
    (fields : List String) :
    (∀ e, strategy_call svc query strategy fields = .error e →
      search_products svc query strategy fields = ([], some (search_error_message e))) ∧
    (∀ rs, strategy_call svc query strategy fields = .ok rs →
      search_products svc query strategy fields = (rs, none)) ∧
    (∀ e, svc.getAllProducts 100 = .error e →
      load_all_products svc = ([], some (load_error_message e))) ∧
    (∀ rs, svc.getAllProducts 100 = .ok rs → load_all_products svc = (rs, none)) := by
  refine ⟨?_, ?_, ?_, ?_⟩ <;> intro x h <;> simp [search_products, load_all_products, h]

/-- Witness for C5 at a service whose every remote call raises. -/
theorem c5_witness :
    search_products svc_fail "코트" "keyword" [] = ([], some (search_error_message "boom")) :=
  (c5_retrieval_boundary svc_fail "코트" "keyword" []).1 "boom" rfl

/-- Claim C6: an utterance whose retrieval yields zero matches makes the
chat handler append the fixed apology with no attached product, and the
completion backend comes back untouched — zero completion calls. -/
theorem c6_empty_results (svc : FallibleSearchService) (b : ChatBackend)
    (chat : List ChatMsg) (prompt : String)
    (h : (search_products svc prompt "hybrid" ALL_SEARCH_FIELDS).1 = []) :
    handle_prompt svc b chat prompt =
      (chat ++ [ChatMsg.mk "user" prompt none,
        ChatMsg.mk "assistant" no_results_message none], b) := by
  simp only [handle_prompt, h]
  simp [List.append_assoc]

/-- Witness for C6 at a service that finds nothing. -/
theorem c6_witness :
    handle_prompt svc_none demo_chat [] "우주선 주세요" =
      ([ChatMsg.mk "user" "우주선 주세요" none,
        ChatMsg.mk "assistant" no_results_message none], demo_chat) :=
  c6_empty_results svc_none demo_chat [] "우주선 주세요" rfl

/-- Claim C7: a lexical (keyword) retrieval makes zero embedding calls;
a vector or hybrid retrieval makes exactly one embedding call per
invocation, whatever `topK` is. The embedding backend's submission log
counts the calls. -/
theorem c7_embedding_calls (svc : AzureSearchService) (query : String)
    (f : Option (List String)) (topK : Option Nat) :
    (keyword_search svc query f topK).2.openaiService.submitted =
      svc.openaiService.submitted ∧
    (vector_search svc query f topK).2.openaiService.submitted =
      svc.openaiService.submitted ++ [clean_text query] ∧
    (hybrid_search svc query f topK).2.openaiService.submitted =
      svc.openaiService.submitted ++ [clean_text query] := by
  exact ⟨rfl, rfl, rfl⟩

/-- Claim C8, counterexample: a backend payload that carries an explicit
null under the imageTags key is passed through by normalization, so the
resulting record's imageTags is null — not a sequence — refuting
"always a sequence, never null". -/
theorem c8_counterexample :
    (process_result [("imageTags", FieldValue.null)]).imageTags = FieldValue.null ∧
    ((process_result [("imageTags", FieldValue.null)]).imageTags).isSeq = false := by
  exact ⟨rfl, rfl⟩

/-- Claim C8, amended: normalization is total — one record per payload,
never erroring; a field whose key is absent defaults to the absent
sentinel, and an absent imageTags key defaults to the empty sequence;
but a present imageTags value (an explicit null included) is passed
through unchanged. -/
theorem c8_amended_normalization (rs : List Payload) (r : Payload) :
    (process_results rs).length = rs.length ∧
    (List.lookup "imageTags" r = none →
      (process_result r).imageTags = FieldValue.strList []) ∧
    (List.lookup "name" r = none → (process_result r).name = FieldValue.null) ∧
    (List.lookup "price" r = none → (process_result r).price = FieldValue.null) ∧
    (List.lookup "description" r = none →
      (process_result r).description = FieldValue.null) ∧
    (∀ v, List.lookup "imageTags" r = some v → (process_result r).imageTags = v) := by
  refine ⟨by simp [process_results], ?_, ?_, ?_, ?_, ?_⟩
  · intro h; simp [process_result, dict_get, h]
  · intro h; simp [process_result, dict_get, h]
  · intro h; simp [process_result, dict_get, h]
  · intro h; simp [process_result, dict_get, h]
  · intro v h; simp [process_result, dict_get, h]

/-- Witness for C8's amended theorem at the empty payload. -/
theorem c8_witness : (process_result []).imageTags = FieldValue.strList [] :=
  (c8_amended_normalization [] []).2.1 rfl

/-- Claim C9: the embedding operation submits exactly the
whitespace-normalized text to the backend — newlines replaced by
spaces and leading/trailing whitespace stripped: the submission has no
newline and neither starts nor ends with whitespace. -/
theorem c9_embedding_normalization (b : EmbedBackend) (text : String) :
    (get_embedding b text).2.submitted = b.submitted ++ [clean_text text] ∧
    (∀ c ∈ (clean_text text).data, c ≠ '\n') ∧
    (∀ c, (clean_text text).data.head? = some c → c.isWhitespace = false) ∧
    (∀ c, (clean_text text).data.getLast? = some c → c.isWhitespace = false) := by
  refine ⟨rfl, ?_, ?_, ?_⟩
  · intro c hc
    exact replace_newlines_no_nl _ c (strip_ws_mem _ c hc)
  · intro c hc
    exact strip_ws_head _ c hc
  · intro c hc
    exact strip_ws_last _ c hc

/-- Witness for C9 at a text with inner newline and outer whitespace. -/
theorem c9_witness : (get_embedding demo_embed " 겨울\n코트 ").2.submitted = ["겨울 코트"] := by
  rw [(c9_embedding_normalization demo_embed " 겨울\n코트 ").1]
  decide

/-- Claim C10: an explicit temperature of 0.0 or max_tokens of 0 is
falsy, so `chat_completion` submits the configured defaults (0.7 and
1000) to the completion backend instead of the caller's zeros — the
same submission as when the caller passes nothing. -/
theorem c10_falsy_defaults (b : ChatBackend) (messages : List ChatMsg) :
    (chat_completion b messages (some 0) (some 0)).2.submitted =
      b.submitted ++ [(messages, Config.DEFAULT_TEMPERATURE, Config.MAX_TOKENS)] ∧
    chat_completion b messages (some 0) (some 0) = chat_completion b messages none none ∧
    Config.DEFAULT_TEMPERATURE = 7/10 ∧ Config.MAX_TOKENS = 1000 := by
  refine ⟨?_, ?_, rfl, rfl⟩
  · simp [chat_completion]
  · simp [chat_completion]
